import Mathlib

/-!
Verification of the anthemav_serial RS232 driver against its specification.

The Python source (anthemav_serial/__init__.py, anthemav_serial/protocol.py,
anthemav_serial/config.py) is shallowly embedded below.  Pure computations
become Lean functions; Python dictionaries become association lists kept in
insertion order; compiled regular expressions are abstracted by their observable
behaviour (an anchored-match function returning the named-capture dictionary);
dynamic-typing failures of the source (equality between bytes and str, calling
an attribute that does not exist, membership tests against None, calling an
async function without awaiting it) are embedded explicitly where a claim
depends on them.
-/

/- ------------------------------------------------------------------ -/
/- Command formatter (anthemav_serial/__init__.py)                    -/
/- ------------------------------------------------------------------ -/

/-- Embedding of the process-wide constant MAX_VOLUME = 100
(anthemav_serial/__init__.py line 27). -/
def MAX_VOLUME : Int := 100

/-- Embedding of the clamp performed by _set_volume_cmd (line 111):
volume = int(max(0, min(volume, MAX_VOLUME))).  On Python ints, int() is the
identity, so the clamp is max 0 (min v MAX_VOLUME). -/
def clampVolume (v : Int) : Int := max 0 (min v MAX_VOLUME)

/-- One segment of a command template string.  The YAML protocol files are not
part of the sources; a template such as P{zone}VM{volume} is embedded in
structured form as a list of literal and placeholder segments, which is what
str.format consumes.  The volume-setting path only ever passes the argument
map \x7bzone, volume\x7d (line 112), so those are the placeholders modelled. -/
inductive Seg
| lit (s : String)
| zoneField
| volumeField
deriving DecidableEq

/-- The argument map passed by the volume path: args = \x7bzone, volume\x7d
(line 112). -/
structure FmtArgs where
  zone : Int
  volume : Int
deriving DecidableEq

/-- Rendering of one template segment under str.format: literals are copied,
placeholders are replaced by the decimal rendering of the argument. -/
def renderSeg (a : FmtArgs) : Seg → String
  | Seg.lit s => s
  | Seg.zoneField => toString a.zone
  | Seg.volumeField => toString a.volume

/-- Embedding of command.format(**args): each segment rendered and
concatenated. -/
def renderTemplate (t : List Seg) (a : FmtArgs) : String :=
  String.join (t.map (renderSeg a))

/-- Embedding of config[commands].get(format_code) (line 101): ordered
association-list lookup returning None when the key is absent. -/
def lookupTemplate : List (String × List Seg) → String → Option (List Seg)
  | [], _ => none
  | (k, t) :: rest, code => if k = code then some t else lookupTemplate rest code

/-- Embedding of _format (anthemav_serial/__init__.py lines 98-107).
A missing command name, and likewise an empty (falsy) template, logs an error
and returns None (lines 102-104); otherwise the end-of-line marker is appended
to the template and the arguments are substituted (lines 106-107).  The ASCII
encoding step is kept at the level of the rendered text. -/
def _format (commands : List (String × List Seg)) (command_eol : String)
    (format_code : String) (a : FmtArgs) : Option String :=
  match lookupTemplate commands format_code with
  | none => none
  | some t =>
    if t.isEmpty then none
    else some (renderTemplate (t ++ [Seg.lit command_eol]) a)

/-- Embedding of _set_volume_cmd (lines 109-112): clamps the volume and
delegates to _format with the set_volume command and the argument map
\x7bzone, volume\x7d.  Used by set_volume of both the synchronous (line 246)
and the asynchronous (line 333) controller. -/
def _set_volume_cmd (commands : List (String × List Seg)) (command_eol : String)
    (zone : Int) (volume : Int) : Option String :=
  _format commands command_eol "set_volume" (FmtArgs.mk zone (clampVolume volume))

/- ------------------------------------------------------------------ -/
/- Response parser (anthemav_serial/__init__.py)                      -/
/- ------------------------------------------------------------------ -/

/-- Value stored in the parsed response dictionary: either the captured string
or a converted boolean. -/
inductive PyEntry
| s (v : String)
| b (v : Bool)
deriving DecidableEq

/-- Python exceptions raised by the parsing path. -/
inductive PyError
| typeError
| attributeError
deriving DecidableEq

/-- Abstraction of a compiled regular expression: its match method, returning
the dictionary of named captures (groupdict, in declaration order) on success
and None on failure. -/
structure Pattern where
  matchFn : String → Option (List (String × String))

/-- Abstraction of a re.Match object: it carries its groupdict.  Crucially, a
Match object has no match attribute. -/
structure MatchObj where
  groupdict : List (String × String)

/-- The second argument of _pattern_to_dictionary as the source actually uses
it: the function body calls pattern.match (line 116), but the only call site
(_handle_message line 144) passes a Match object, not a Pattern. -/
inductive PatternLike
| pattern (p : Pattern)
| matchObj (m : MatchObj)

/-- Embedding of the attribute access and call pattern.match(source_text)
(line 116) under Python attribute lookup: a compiled Pattern has a match
method; a re.Match object does not, so the access raises AttributeError. -/
def likeMatch : PatternLike → String → Except PyError (Option MatchObj)
  | PatternLike.pattern p, text => Except.ok ((p.matchFn text).map MatchObj.mk)
  | PatternLike.matchObj _, _ => Except.error PyError.attributeError

/-- Embedding of the conversion loop of _pattern_to_dictionary
(lines 125-132).  boolean_fields is PROTOCOL_CONFIG[protocol_type]
.get(boolean_fields), hence None when the protocol does not declare the key.
The loop evaluates k in boolean_fields for every entry of the groupdict: with
boolean_fields = None this raises TypeError on the first entry; with an empty
groupdict the loop body never runs.  For a declared field, the literal "0"
becomes False and the literal "1" becomes True; every other value, and every
undeclared field, is left as the captured string. -/
def convertFields : Option (List String) → List (String × String) →
    Except PyError (List (String × PyEntry))
  | _, [] => Except.ok []
  | none, _ :: _ => Except.error PyError.typeError
  | some bf, (k, v) :: rest =>
    (convertFields (some bf) rest).map
      (fun t =>
        (k,
          if k ∈ bf then
            (if v = "0" then PyEntry.b false
             else if v = "1" then PyEntry.b true
             else PyEntry.s v)
          else PyEntry.s v) :: t)

/-- Embedding of _pattern_to_dictionary (lines 114-133): re-runs the match of
its second argument (line 116) — raising AttributeError if that argument is a
Match object rather than a Pattern —, returns None when the match fails
(lines 117-119), and otherwise converts the groupdict (lines 121-133). -/
def _pattern_to_dictionary (boolean_fields : Option (List String))
    (pl : PatternLike) (source_text : String) :
    Except PyError (Option (List (String × PyEntry))) :=
  match likeMatch pl source_text with
  | Except.error e => Except.error e
  | Except.ok none => Except.ok none
  | Except.ok (some m) => (convertFields boolean_fields m.groupdict).map some

/-- The boolean conversion exactly as the specification words it, per field:
a field declared in boolean_fields has the literal "0" mapped to false and the
literal "1" mapped to true; any other captured value, and every field not
declared boolean, passes through unchanged as a string. -/
def specBoolConvert (boolean_fields : List String) (k v : String) : PyEntry :=
  if k ∈ boolean_fields then
    (if v = "0" then PyEntry.b false
     else if v = "1" then PyEntry.b true
     else PyEntry.s v)
  else PyEntry.s v

/-- Embedding of _handle_message (lines 135-147): tries the precompiled
patterns in their configuration (insertion) order; for the first pattern whose
match succeeds it returns _pattern_to_dictionary applied — exactly as at line
144 — to the Match object itself; if no pattern matches it returns None. -/
def _handle_message (boolean_fields : Option (List String)) :
    List (String × Pattern) → String →
    Except PyError (Option (List (String × PyEntry)))
  | [], _ => Except.ok none
  | (_, p) :: rest, text =>
    match p.matchFn text with
    | some m => _pattern_to_dictionary boolean_fields (PatternLike.matchObj (MatchObj.mk m)) text
    | none => _handle_message boolean_fields rest text

/- ------------------------------------------------------------------ -/
/- Line reader (anthemav_serial/protocol.py, _read_unlocked)          -/
/- ------------------------------------------------------------------ -/

/-- Boolean byte-string test: is the first list an initial run of the second.
Used to locate occurrences of the end-of-line marker inside the receive
buffer, embedding the Python tests eol in data (line 123) and
data.split(eol) (line 125). -/
def isPre : List Nat → List Nat → Bool
  | [], _ => true
  | _ :: _, [] => false
  | a :: as, b :: bs => a == b && isPre as bs

/-- The bytes of the buffer that precede the first occurrence of the
end-of-line marker, or none when the marker does not occur.  For a non-empty
marker this is exactly the combination of the Python tests eol in data and
data.split(eol)[0] (lines 123-129). -/
def bytesBeforeEol (eol : List Nat) : List Nat → Option (List Nat)
  | [] => none
  | b :: rest =>
    if isPre eol (b :: rest) then some []
    else (bytesBeforeEol eol rest).map (fun r => b :: r)

/-- Embedding of result_lines[0].decode(ascii) (line 129): each byte becomes
the character with that code point. -/
def asciiDecode (bs : List Nat) : String :=
  String.mk (bs.map (fun b => Char.ofNat b))

/-- Concatenation of all inbound chunks, i.e. the full byte stream delivered
through data_received regardless of where the chunk boundaries fall. -/
def joinAll : List (List Nat) → List Nat
  | [] => []
  | c :: cs => c ++ joinAll cs

/-- Embedding of the loop of _read_unlocked (protocol.py lines 114-131),
with time abstracted away: dequeue the next inbound chunk, append it to the
buffer (line 121), and as soon as the buffer contains the end-of-line marker
return the decoded text before its first occurrence, discarding everything
after it (lines 123-131).  A stream that ends without the marker is the
timeout path, modelled as none here and with explicit time below. -/
def _read_unlocked (eol : List Nat) : List Nat → List (List Nat) → Option String
  | _, [] => none
  | data, c :: cs =>
    match bytesBeforeEol eol (data ++ c) with
    | some r => some (asciiDecode r)
    | none => _read_unlocked eol (data ++ c) cs

/-- Outcome of a timed read: the framed line, or the TimeoutError escape of
lines 132-134. -/
inductive ReadOutcome
| ok (line : List Nat)
| timedOut
deriving DecidableEq

/-- Embedding of _read_unlocked with explicit time (protocol.py lines
114-134).  Every element of the stream is a chunk tagged with the time its
dequeue takes.  The source wraps each individual dequeue in
asyncio.wait_for(self._q.get(), self._timeout) (line 121), so a dequeue that
takes at least the configured timeout raises TimeoutError, while every faster
dequeue restarts the clock; an exhausted stream leaves the final dequeue
waiting until the timeout expires.  The second component is the total elapsed
time of the whole read. -/
def _read_unlocked_timed (eol : List Nat) (timeout : Nat) :
    List Nat → List (Nat × List Nat) → ReadOutcome × Nat
  | _, [] => (ReadOutcome.timedOut, timeout)
  | data, (d, c) :: rest =>
    if timeout ≤ d then (ReadOutcome.timedOut, timeout)
    else
      match bytesBeforeEol eol (data ++ c) with
      | some r => (ReadOutcome.ok r, d)
      | none =>
        let res := _read_unlocked_timed eol timeout (data ++ c) rest
        (res.1, d + res.2)

/- ------------------------------------------------------------------ -/
/- Scheduler send path (anthemav_serial/protocol.py, send)            -/
/- ------------------------------------------------------------------ -/

/-- A Python value that can appear in the power-on comparison of send
(protocol.py line 102): the request is a bytes object (send is declared with
request: bytes, and every caller passes the encoded frame produced by
_format), while the configured power-on frames are str literals. -/
inductive PyFrame
| pyBytes (b : List Nat)
| pyStr (s : String)
deriving DecidableEq

/-- Python equality between such values: bytes and str never compare equal,
whatever their contents. -/
def pyFrameEq : PyFrame → PyFrame → Bool
  | PyFrame.pyBytes a, PyFrame.pyBytes c => a == c
  | PyFrame.pyStr a, PyFrame.pyStr c => a == c
  | _, _ => false

/-- The literal list of line 102: [ "P1P1\n", "P2P1\n", "P1P3\n" ] — three
str literals. -/
def POWER_ON_FRAMES : List PyFrame :=
  [PyFrame.pyStr "P1P1\n", PyFrame.pyStr "P2P1\n", PyFrame.pyStr "P1P3\n"]

/-- Embedding of the Python membership test request in [...] (line 102):
true when some element of the list compares equal to the request. -/
def pyListContains (l : List PyFrame) (x : PyFrame) : Bool :=
  l.any (fun y => pyFrameEq x y)

/-- The value of self._last_send after the write in send (protocol.py lines
97-103): it is set to the current time (line 97) and then, if the request is
a member of the power-on list, overwritten with now + delay_after_power_on
(lines 102-103). -/
def send_record_last_send (request : PyFrame) (now delay_after_power_on : Int) : Int :=
  if pyListContains POWER_ON_FRAMES request then now + delay_after_power_on else now

/-- Embedding of the delay computed by _throttle_requests (protocol.py lines
71-82): with delta the time since the recorded last send, a negative delta
(a pending power-on cooldown) sleeps -delta; a delta below the minimum
inter-command time sleeps the clipped remainder; otherwise there is no
sleep. -/
def _throttle_requests_delay (min_time_between_commands last_send now : Int) : Int :=
  let delta := now - last_send
  if delta < 0 then (-1) * delta
  else if delta < min_time_between_commands then
    min (max 0 (min_time_between_commands - delta)) min_time_between_commands
  else 0

/-- How a Python function is declared: with def or with async def. -/
inductive PyFunKind
| plainDef
| asyncDef

/-- How a call site invokes it: awaited, or as a bare call expression. -/
inductive CallStyle
| awaited
| bare

/-- Whether the body of the called function actually executes: calling an
async def function produces a coroutine object without running its body, so a
bare (un-awaited) call of one never executes it. -/
def pyCallRuns : PyFunKind → CallStyle → Bool
  | PyFunKind.plainDef, _ => true
  | PyFunKind.asyncDef, CallStyle.awaited => true
  | PyFunKind.asyncDef, CallStyle.bare => false

/-- _throttle_requests is declared async def (protocol.py line 71). -/
def throttle_requests_kind : PyFunKind := PyFunKind.asyncDef

/-- send invokes it as self._throttle_requests() with no await
(protocol.py line 87). -/
def send_throttle_call_style : CallStyle := CallStyle.bare

/-- The delay that send actually imposes before writing the frame: the
throttle delay when the call at line 87 executes the throttle body, and zero
when it does not. -/
def send_pre_write_delay (min_time_between_commands last_send now : Int) : Int :=
  if pyCallRuns throttle_requests_kind send_throttle_call_style then
    _throttle_requests_delay min_time_between_commands last_send now
  else 0

/- ------------------------------------------------------------------ -/
/- Connection guard (anthemav_serial/protocol.py, ensure_connected)   -/
/- ------------------------------------------------------------------ -/

/-- The class attribute produced by applying a decorator at class-definition
time: a def decorator runs its body and returns the wrapper function it
builds; an async def decorator returns a coroutine object, its body (and
hence the wrapper construction) unexecuted. -/
inductive DecoratedAttr
| wrapperFunc
| coroutineObject

/-- Evaluation of decorator(method) according to the declaration kind of the
decorator. -/
def applyDecorator : PyFunKind → DecoratedAttr
  | PyFunKind.plainDef => DecoratedAttr.wrapperFunc
  | PyFunKind.asyncDef => DecoratedAttr.coroutineObject

/-- ensure_connected is declared async def (protocol.py line 27). -/
def ensure_connected_kind : PyFunKind := PyFunKind.asyncDef

/-- The send attribute of RS232ControlProtocol: send is decorated with
@ensure_connected (protocol.py line 84), so the attribute is the result of
applying that decorator to the method. -/
def send_attr : DecoratedAttr := applyDecorator ensure_connected_kind

/-- Observable outcome of calling protocol.send(request). -/
inductive SendCallOutcome
| typeError
| returnedWithoutWrite
| wroteFrame
deriving DecidableEq

/-- Calling the decorated send attribute: a coroutine object is not callable,
so the call raises TypeError before anything else happens; a wrapper function
runs the guard of protocol.py lines 29-35, which waits for the connected
event for at most the configured timeout and, when that wait times out,
returns without invoking the wrapped method (hence without writing), and
otherwise proceeds to the method body, which writes the frame (line 98). -/
def call_guarded_send (attr : DecoratedAttr) (connected_within_timeout : Bool) :
    SendCallOutcome :=
  match attr with
  | DecoratedAttr.coroutineObject => SendCallOutcome.typeError
  | DecoratedAttr.wrapperFunc =>
    if connected_within_timeout then SendCallOutcome.wroteFrame
    else SendCallOutcome.returnedWithoutWrite

/- ------------------------------------------------------------------ -/
/- Device configuration sharing (anthemav_serial/__init__.py)         -/
/- ------------------------------------------------------------------ -/

/-- Embedding of Python dictionary assignment d[k] = v on an ordered
dictionary: an existing key keeps its position and gets the new value, a new
key is appended. -/
def setKey : List (String × Int) → String → Int → List (String × Int)
  | [], k, v => [(k, v)]
  | (k0, v0) :: rest, k, v =>
    if k0 = k then (k, v) :: rest else (k0, v0) :: setKey rest k v

/-- Embedding of d.update(overrides), which assigns every override entry into
d in place. -/
def dictUpdate : List (String × Int) → List (String × Int) → List (String × Int)
  | d, [] => d
  | d, (k, v) :: rest => dictUpdate (setKey d k v) rest

/-- The contents of DEVICE_CONFIG[amp_series][rs232_defaults] after
get_amp_controller (lines 165-167) — identically after
get_async_amp_controller (lines 289-291): serial_config is bound to the very
dictionary stored inside DEVICE_CONFIG (line 165, no copy), and when the
caller passes a non-empty overrides dictionary, serial_config.update mutates
that shared dictionary in place (lines 166-167). -/
def rs232_defaults_after (defaults overrides : List (String × Int)) :
    List (String × Int) :=
  if overrides.isEmpty then defaults else dictUpdate defaults overrides

/- ------------------------------------------------------------------ -/
/- Helper lemmas                                                      -/
/- ------------------------------------------------------------------ -/

/-- An initial run of a buffer is still an initial run after the buffer is
extended on the right. -/
theorem isPre_extend (eol : List Nat) :
    ∀ buf ext, isPre eol buf = true → isPre eol (buf ++ ext) = true := by
  induction eol with
  | nil => intro buf ext _; cases buf <;> simp [isPre]
  | cons a as ih =>
    intro buf ext h
    cases buf with
    | nil => simp [isPre] at h
    | cons b bs =>
      simp only [isPre, Bool.and_eq_true] at h
      rw [List.cons_append]
      simp only [isPre, Bool.and_eq_true]
      exact ⟨h.1, ih bs ext h.2⟩

/-- An initial run is no longer than the buffer it runs along. -/
theorem isPre_length (eol : List Nat) :
    ∀ buf, isPre eol buf = true → eol.length ≤ buf.length := by
  induction eol with
  | nil => intro buf _; simp
  | cons a as ih =>
    intro buf h
    cases buf with
    | nil => simp [isPre] at h
    | cons b bs =>
      simp only [isPre, Bool.and_eq_true] at h
      simp only [List.length_cons]
      exact Nat.succ_le_succ (ih bs h.2)

/-- A failed initial-run test that already had enough buffer to decide stays
failed after the buffer is extended on the right. -/
theorem isPre_extend_false (eol : List Nat) :
    ∀ buf ext, isPre eol buf = false → eol.length ≤ buf.length →
      isPre eol (buf ++ ext) = false := by
  induction eol with
  | nil => intro buf ext h _; cases buf <;> simp [isPre] at h
  | cons a as ih =>
    intro buf ext h hl
    cases buf with
    | nil => simp at hl
    | cons b bs =>
      rw [List.cons_append]
      simp only [isPre] at h ⊢
      cases hab : (a == b) with
      | false => simp [hab]
      | true =>
        rw [hab, Bool.true_and] at h
        rw [Bool.true_and]
        simp only [List.length_cons] at hl
        exact ih bs ext h (Nat.le_of_succ_le_succ hl)

/-- If the marker occurs in the buffer, the marker fits inside the buffer. -/
theorem bytesBeforeEol_length (eol : List Nat) :
    ∀ buf r, bytesBeforeEol eol buf = some r → eol.length ≤ buf.length := by
  intro buf
  induction buf with
  | nil => intro r h; simp [bytesBeforeEol] at h
  | cons b bs ih =>
    intro r h
    simp only [bytesBeforeEol] at h
    by_cases hp : isPre eol (b :: bs) = true
    · exact isPre_length eol (b :: bs) hp
    · rw [if_neg hp] at h
      obtain ⟨r0, h1, _⟩ := Option.map_eq_some'.mp h
      simp only [List.length_cons]
      exact Nat.le_succ_of_le (ih r0 h1)

/-- Extending the buffer on the right cannot move or remove the first
occurrence of the marker once the buffer already contains one: an occurrence
created by the extension would straddle the old end of the buffer and hence
start strictly after any occurrence lying fully inside it. -/
theorem bytesBeforeEol_extend (eol : List Nat) :
    ∀ buf ext r, bytesBeforeEol eol buf = some r →
      bytesBeforeEol eol (buf ++ ext) = some r := by
  intro buf
  induction buf with
  | nil => intro ext r h; simp [bytesBeforeEol] at h
  | cons b bs ih =>
    intro ext r h
    simp only [bytesBeforeEol] at h
    by_cases hp : isPre eol (b :: bs) = true
    · rw [if_pos hp] at h
      have hp2 : isPre eol (b :: (bs ++ ext)) = true := by
        have := isPre_extend eol (b :: bs) ext hp
        rwa [List.cons_append] at this
      rw [List.cons_append]
      simp only [bytesBeforeEol]
      rw [if_pos hp2]
      exact h
    · rw [if_neg hp] at h
      obtain ⟨r0, h1, h2⟩ := Option.map_eq_some'.mp h
      have hlen : eol.length ≤ (b :: bs).length := by
        simp only [List.length_cons]
        exact Nat.le_succ_of_le (bytesBeforeEol_length eol bs r0 h1)
      have hff : isPre eol (b :: bs) = false := by
        cases hx : isPre eol (b :: bs)
        · rfl
        · exact absurd hx hp
      have hp2 : ¬ isPre eol (b :: (bs ++ ext)) = true := by
        have := isPre_extend_false eol (b :: bs) ext hff hlen
        rw [List.cons_append] at this
        simp [this]
      rw [List.cons_append]
      simp only [bytesBeforeEol]
      rw [if_neg hp2, ih ext r0 h1]
      simp only [Option.map_some']
      rw [h2]

/-- Invariant form of the untimed line-reader correctness: with a buffer that
does not yet contain the marker, the reader returns the text before the first
marker occurrence of buffer-plus-stream. -/
theorem read_unlocked_aux (eol : List Nat) :
    ∀ (chunks : List (List Nat)) (data r : List Nat),
      bytesBeforeEol eol (data ++ joinAll chunks) = some r →
      bytesBeforeEol eol data = none →
      _read_unlocked eol data chunks = some (asciiDecode r) := by
  intro chunks
  induction chunks with
  | nil =>
    intro data r h hn
    rw [joinAll, List.append_nil] at h
    rw [h] at hn
    cases hn
  | cons c cs ih =>
    intro data r h hn
    rw [joinAll, ← List.append_assoc] at h
    simp only [_read_unlocked]
    cases heq : bytesBeforeEol eol (data ++ c) with
    | some r0 =>
      have hext := bytesBeforeEol_extend eol (data ++ c) (joinAll cs) r0 heq
      rw [hext] at h
      injection h with h
      subst h
      simp only [heq]
    | none =>
      simp only [heq]
      exact ih (data ++ c) r h heq

/-- Invariant form of the timed line-reader correctness: when every dequeue
beats the per-dequeue deadline and the stream contains the marker, the read
succeeds with the first framed line. -/
theorem read_timed_aux (eol : List Nat) (T : Nat) :
    ∀ (chunks : List (Nat × List Nat)) (data r : List Nat),
      (∀ p ∈ chunks, p.1 < T) →
      bytesBeforeEol eol (data ++ joinAll (chunks.map (fun p => p.2))) = some r →
      bytesBeforeEol eol data = none →
      (_read_unlocked_timed eol T data chunks).1 = ReadOutcome.ok r := by
  intro chunks
  induction chunks with
  | nil =>
    intro data r _ h hn
    simp only [List.map_nil, joinAll, List.append_nil] at h
    rw [h] at hn
    cases hn
  | cons dc rest ih =>
    intro data r hall h hn
    obtain ⟨d, c⟩ := dc
    have hd : d < T := hall (d, c) (List.mem_cons_self _ _)
    simp only [List.map_cons, joinAll, ← List.append_assoc] at h
    simp only [_read_unlocked_timed]
    rw [if_neg (Nat.not_le.mpr hd)]
    cases heq : bytesBeforeEol eol (data ++ c) with
    | some r0 =>
      have hext := bytesBeforeEol_extend eol (data ++ c)
        (joinAll (rest.map (fun p => p.2))) r0 heq
      rw [hext] at h
      injection h with h
      subst h
      simp only [heq]
    | none =>
      simp only [heq]
      exact ih (data ++ c) r (fun p hp => hall p (List.mem_cons_of_mem _ hp)) h heq

/-- The conversion loop over a declared boolean_fields list maps every
captured field through the per-field conversion of the specification. -/
theorem convertFields_some (bf : List String) :
    ∀ d : List (String × String),
      convertFields (some bf) d =
        Except.ok (d.map (fun kv => (kv.1, specBoolConvert bf kv.1 kv.2))) := by
  intro d
  induction d with
  | nil => rfl
  | cons kv rest ih =>
    obtain ⟨k, v⟩ := kv
    simp only [convertFields, ih, Except.map, List.map_cons, specBoolConvert]

/- ------------------------------------------------------------------ -/
/- Claim theorems                                                     -/
/- ------------------------------------------------------------------ -/

/-- Claim C1: the volume-setting path substitutes exactly
max(0, min(v, MAX_VOLUME)) as the volume of the emitted frame, for both
controllers, which share _set_volume_cmd; in particular v = -5 yields the
frame for 0 and v = MAX_VOLUME + 50 yields the frame for MAX_VOLUME, and the
substituted volume always lies in [0, MAX_VOLUME]. -/
theorem C1_volume_clamped (commands : List (String × List Seg))
    (command_eol : String) (zone v : Int) :
    _set_volume_cmd commands command_eol zone v =
      _format commands command_eol "set_volume" (FmtArgs.mk zone (clampVolume v)) ∧
    0 ≤ clampVolume v ∧ clampVolume v ≤ MAX_VOLUME ∧
    _set_volume_cmd commands command_eol zone (-5) =
      _format commands command_eol "set_volume" (FmtArgs.mk zone 0) ∧
    _set_volume_cmd commands command_eol zone (MAX_VOLUME + 50) =
      _format commands command_eol "set_volume" (FmtArgs.mk zone MAX_VOLUME) := by
  refine ⟨rfl, ?_, ?_, rfl, rfl⟩
  · simp only [clampVolume]
    exact le_max_left 0 _
  · simp only [clampVolume]
    exact max_le (by norm_num [MAX_VOLUME]) (min_le_right v MAX_VOLUME)

/-- Claim C2, evaluated at a failing input: a command name absent from the
command map makes _format return None — there is no UnknownCommand error in
the code, and the None result flows on to the transport layer of the caller
instead of aborting the call. -/
theorem C2_unknown_command_returns_none :
    _format [("power_on", [Seg.lit "P1P1"])] "\n" "set_volume" (FmtArgs.mk 1 50) = none ∧
    lookupTemplate [("power_on", [Seg.lit "P1P1"])] "set_volume" = none := by
  constructor
  · decide
  · decide

/-- Claim C3, evaluated at a failing input: the request reaching send is a
bytes object, the power-on list holds str literals, and Python equality
between bytes and str is always false — so sending the encoded power-on frame
P1P1 followed by newline records plain now as the send timestamp, never
now + delay_after_power_on; the str spelling of the same frame would have
matched.  Moreover the throttle coroutine is invoked without await, so even a
recorded future timestamp would impose no actual delay (the last conjunct
shows the delay the throttle body would have computed had it run). -/
theorem C3_power_on_cooldown_never_recorded :
    send_record_last_send (PyFrame.pyBytes [80, 49, 80, 49, 10]) 1000 5 = 1000 ∧
    send_record_last_send (PyFrame.pyStr "P1P1\n") 1000 5 = 1005 ∧
    send_pre_write_delay 2 1005 1000 = 0 ∧
    _throttle_requests_delay 2 1005 1000 = 5 := by
  refine ⟨by decide, by decide, by decide, by decide⟩

/-- Claim C4: for a protocol that declares boolean_fields, every matched line
is converted field by field — a declared field captured as the literal "0"
becomes false, captured as "1" becomes true, and every other capture (and
every undeclared field) passes through unchanged as a string. -/
theorem C4_boolean_field_conversion (bf : List String) (p : Pattern)
    (text : String) (d : List (String × String)) (h : p.matchFn text = some d) :
    _pattern_to_dictionary (some bf) (PatternLike.pattern p) text =
      Except.ok (some (d.map (fun kv => (kv.1, specBoolConvert bf kv.1 kv.2)))) := by
  simp only [_pattern_to_dictionary, likeMatch, h, Option.map_some']
  simp only [convertFields_some, Except.map]

/-- Witness for claim C4 at a concrete input: a pattern capturing the boolean
field muted as "1" yields the field converted to true. -/
theorem C4_witness :
    (Pattern.mk (fun _ => some [("muted", "1")])).matchFn "Z1M1" = some [("muted", "1")] ∧
    _pattern_to_dictionary (some ["muted"])
        (PatternLike.pattern (Pattern.mk (fun _ => some [("muted", "1")]))) "Z1M1" =
      Except.ok (some ([("muted", "1")].map
        (fun kv => (kv.1, specBoolConvert ["muted"] kv.1 kv.2)))) :=
  ⟨rfl, C4_boolean_field_conversion ["muted"]
    (Pattern.mk (fun _ => some [("muted", "1")])) "Z1M1" [("muted", "1")] rfl⟩

/-- Claim C5, evaluated at a failing input: when the first pattern matches,
_handle_message hands the Match object itself to _pattern_to_dictionary,
whose pattern.match call then raises AttributeError — it does not return the
field map; only the no-match path returns None as claimed. -/
theorem C5_first_match_raises :
    _handle_message (some ["power"])
        [("zone_status", Pattern.mk (fun _ => some [("power", "1")]))] "Z1P1" =
      Except.error PyError.attributeError ∧
    _handle_message (some ["power"])
        [("zone_status", Pattern.mk (fun _ => none))] "Z1P1" = Except.ok none :=
  ⟨rfl, rfl⟩

/-- Claim C6: for an inbound stream delivered in arbitrary chunks whose
concatenation contains the (non-empty) end-of-line marker, the line reader
returns exactly the decoded text before the first marker occurrence and
discards everything after it, wherever the chunk boundaries fall. -/
theorem C6_read_first_line (eol : List Nat) (chunks : List (List Nat))
    (r : List Nat) (_heol : eol ≠ [])
    (h : bytesBeforeEol eol (joinAll chunks) = some r) :
    _read_unlocked eol [] chunks = some (asciiDecode r) :=
  read_unlocked_aux eol chunks [] r (by rwa [List.nil_append]) rfl

/-- Witness for claim C6 at a concrete input: the marker arrives in the
middle of the second chunk; the reader returns the text before it and drops
the rest of that chunk and the whole third chunk. -/
theorem C6_witness :
    (([10] : List Nat) ≠ [] ∧
      bytesBeforeEol [10] (joinAll [[90], [49, 10, 88], [77]]) = some [90, 49]) ∧
    _read_unlocked [10] [] [[90], [49, 10, 88], [77]] = some (asciiDecode [90, 49]) :=
  ⟨⟨by decide, by decide⟩,
    C6_read_first_line [10] [[90], [49, 10, 88], [77]] [90, 49] (by decide) (by decide)⟩

/-- Claim C7 counterexample: with the timeout set to 10, two dequeues of 6
time units each deliver the line; the read succeeds after a total of 12 time
units, exceeding the configured timeout without any ReadTimeout — so the
timeout is not a single deadline for the whole read. -/
theorem C7_counterexample :
    _read_unlocked_timed [10] 10 [] [(6, [88]), (6, [10])] = (ReadOutcome.ok [88], 12) ∧
    10 < 12 :=
  ⟨rfl, by decide⟩

/-- Claim C7 (amended): the timeout bounds each chunk dequeue separately —
whenever every dequeue beats the timeout and the stream contains the marker,
the read succeeds, even though (per the counterexample) the total time across
dequeues may exceed the configured timeout. -/
theorem C7_per_dequeue_timeout (eol : List Nat) (T : Nat)
    (chunks : List (Nat × List Nat)) (r : List Nat)
    (hall : ∀ p ∈ chunks, p.1 < T)
    (h : bytesBeforeEol eol (joinAll (chunks.map (fun p => p.2))) = some r) :
    (_read_unlocked_timed eol T [] chunks).1 = ReadOutcome.ok r :=
  read_timed_aux eol T chunks [] r hall (by rwa [List.nil_append]) rfl

/-- Witness for the amended claim C7 at a concrete input. -/
theorem C7_witness :
    ((∀ p ∈ ([(6, [88]), (6, [10])] : List (Nat × List Nat)), p.1 < 10) ∧
      bytesBeforeEol [10]
        (joinAll (([(6, [88]), (6, [10])] : List (Nat × List Nat)).map (fun p => p.2))) =
        some [88]) ∧
    (_read_unlocked_timed [10] 10 [] [(6, [88]), (6, [10])]).1 = ReadOutcome.ok [88] :=
  ⟨⟨by decide, by decide⟩,
    C7_per_dequeue_timeout [10] 10 [(6, [88]), (6, [10])] [88] (by decide) (by decide)⟩

/-- Claim C8, evaluated at a failing input: because ensure_connected is
declared async def, the decorated send attribute is a coroutine object and
every call of it raises TypeError — whether or not the connection is up — so
the bounded wait and the silent no-write return never happen; the last
conjunct shows that a plain def decorator would have produced the claimed
behaviour. -/
theorem C8_send_before_connected_type_error :
    call_guarded_send send_attr false = SendCallOutcome.typeError ∧
    call_guarded_send send_attr true = SendCallOutcome.typeError ∧
    call_guarded_send (applyDecorator PyFunKind.plainDef) false =
      SendCallOutcome.returnedWithoutWrite :=
  ⟨rfl, rfl, rfl⟩

/-- Claim C9, evaluated at a failing input: constructing a controller with a
serial override mutates the shared rs232_defaults dictionary of
DEVICE_CONFIG in place, so the loaded device configuration is not left
unchanged. -/
theorem C9_shared_defaults_mutated :
    rs232_defaults_after [("baudrate", 9600), ("timeout", 1)] [("baudrate", 115200)] =
      [("baudrate", 115200), ("timeout", 1)] ∧
    rs232_defaults_after [("baudrate", 9600), ("timeout", 1)] [("baudrate", 115200)] ≠
      [("baudrate", 9600), ("timeout", 1)] := by
  constructor
  · decide
  · decide

/-- Claim C10 counterexample: a protocol without boolean_fields whose
matching pattern captures no named field returns the empty field map without
raising — so not every matching reply line raises. -/
theorem C10_counterexample :
    _pattern_to_dictionary none
        (PatternLike.pattern (Pattern.mk (fun _ => some []))) "Z1P1" =
      Except.ok (some []) ∧
    _pattern_to_dictionary none
        (PatternLike.pattern (Pattern.mk (fun _ => some []))) "Z1P1" ≠
      Except.error PyError.typeError :=
  ⟨rfl, fun hcontra => Except.noConfusion hcontra⟩

/-- Claim C10 (amended): for a protocol that does not declare boolean_fields,
parsing a matching reply line whose match captures at least one named field
raises TypeError, because the conversion loop tests membership in the missing
(None) set. -/
theorem C10_missing_boolean_fields_type_error (p : Pattern) (text : String)
    (kv : String × String) (rest : List (String × String))
    (h : p.matchFn text = some (kv :: rest)) :
    _pattern_to_dictionary none (PatternLike.pattern p) text =
      Except.error PyError.typeError := by
  obtain ⟨k, v⟩ := kv
  simp only [_pattern_to_dictionary, likeMatch, h, Option.map_some', convertFields,
    Except.map]

/-- Witness for the amended claim C10 at a concrete input. -/
theorem C10_witness :
    (Pattern.mk (fun _ => some [("power", "1")])).matchFn "Z1P1" = some [("power", "1")] ∧
    _pattern_to_dictionary none
        (PatternLike.pattern (Pattern.mk (fun _ => some [("power", "1")]))) "Z1P1" =
      Except.error PyError.typeError :=
  ⟨rfl, C10_missing_boolean_fields_type_error
    (Pattern.mk (fun _ => some [("power", "1")])) "Z1P1" ("power", "1") [] rfl⟩
